import Mathlib

/-!
# Verification of the MivaBDN embed controller

Shallow embedding of `src/lib/MivaBDN.ts` (two concatenated variants: the
clear-and-recreate variant, modelled in namespace `MivaBDN`, and the
iframe-reuse variant, modelled in namespace `MivaBDN.Reuse`) together with
the demo bootstrap `initMivaBDN` from `src/unnamed/part_000`.

Modelling conventions:
* JavaScript values flowing through the message channel are modelled by
  `MivaBDN.JValue`; `data?.status` is `MivaBDN.statusOf`.
* Exceptions are explicit: a thrown `MivaBDNError` is
  `JSError.mivaBDNError msg`, the platform `TypeError` thrown by `new URL`
  on an unparseable address is `JSError.typeError`, an exception thrown by
  a user callback is `JSError.userError`.
* The WHATWG `URL` object is modelled by `URLRec` with a simplified parser
  `parseURL` covering hierarchical `scheme://host[/path][?query]`
  addresses, the only kind the repository uses; `searchParams.set` is
  `setParam` (replace the first binding of the key and drop later
  duplicates, else append), `toString` is `urlToString`.
* The host page is modelled by a single mount container (`Host`); the
  window-level `message` subscription of the one controller under study is
  the boolean `Host.subscribed` (`addEventListener` dedupes an identical
  handler, so a boolean is exact for a single instance).
* User callbacks are modelled by their observable behaviour: `Callbacks`
  maps the payload to `none` (the callback returns) or `some msg` (it
  throws).  Invocations are recorded as `Effect`s, in execution order.
-/

namespace MivaBDN

/-- Model of a JavaScript value as delivered in a `MessageEvent.data`. -/
inductive JValue where
  | null : JValue
  | bool : Bool → JValue
  | num : Int → JValue
  | str : String → JValue
  | obj : List (String × JValue) → JValue
deriving Repr

/-- `data?.status`: defined only when `data` is an object with a `status`
field (JS object keys are unique, so first binding is the binding). -/
def statusOf : JValue → Option JValue
  | JValue.obj fields => fields.lookup "status"
  | _ => none

/-- Exceptions that the modelled code can throw. -/
inductive JSError where
  | mivaBDNError : String → JSError
  | typeError : String → JSError
  | notFoundError : String → JSError
  | userError : String → JSError
deriving Repr, DecidableEq

/-- Whether an exception is the library's typed `MivaBDNError`. -/
def JSError.isMivaBDNError : JSError → Bool
  | JSError.mivaBDNError _ => true
  | _ => false

/-- Model of a parsed WHATWG URL restricted to hierarchical
`scheme://host[/path][?query]` shape. `host` keeps any explicit port. -/
structure URLRec where
  scheme : String
  host : String
  path : String
  params : List (String × String)
deriving Repr, DecidableEq

/-- `URL.origin` for a hierarchical URL: `scheme://host`. -/
def URLRec.origin (u : URLRec) : String :=
  u.scheme ++ "://" ++ u.host

/-- Split a character list at the first occurrence of the (nonempty)
separator: `some (before, after)`, or `none` when the separator does not
occur. -/
def splitFirst (sep : List Char) : List Char → Option (List Char × List Char)
  | [] => none
  | c :: cs =>
    if sep.isPrefixOf (c :: cs) then some ([], List.drop sep.length (c :: cs))
    else
      match splitFirst sep cs with
      | some (pre, post) => some (c :: pre, post)
      | none => none

/-- Split a character list at every occurrence of a separator character. -/
def splitAllChar (sep : Char) : List Char → List (List Char)
  | [] => [[]]
  | c :: cs =>
    if c = sep then [] :: splitAllChar sep cs
    else
      match splitAllChar sep cs with
      | t :: ts => (c :: t) :: ts
      | [] => [[c]]

/-- Parse a query string `k1=v1&k2=v2` into bindings (no percent decoding:
the repository only passes characters that are their own encoding). -/
def parseQuery (q : List Char) : List (String × String) :=
  (splitAllChar '&' q).filter (fun kv => !kv.isEmpty) |>.map (fun kv =>
    match splitFirst ['='] kv with
    | some (k, v) => (⟨k⟩, ⟨v⟩)
    | none => (⟨kv⟩, ""))

/-- Simplified model of `new URL(s)`: succeeds exactly on
`scheme://host[/path][?query]` with an alphabetic scheme and a nonempty
host, and fails (the real constructor throws `TypeError`) otherwise. -/
def parseURL (s : String) : Option URLRec :=
  match splitFirst [':', '/', '/'] s.data with
  | none => none
  | some (schemeChars, afterScheme) =>
    if schemeChars.isEmpty || !schemeChars.all Char.isAlpha then none
    else
      let (hostPath, query) :=
        match splitFirst ['?'] afterScheme with
        | some (b, q) => (b, q)
        | none => (afterScheme, [])
      let (hostChars, pathChars) :=
        match splitFirst ['/'] hostPath with
        | some (hc, pc) => (hc, '/' :: pc)
        | none => (hostPath, [])
      if hostChars.isEmpty then none
      else some { scheme := ⟨schemeChars⟩, host := ⟨hostChars⟩, path := ⟨pathChars⟩,
                  params := parseQuery query }

/-- `URLSearchParams.set`: replace the value of the first binding of `k`
(dropping any later bindings of `k`), or append if `k` is unbound. -/
def setParam : List (String × String) → String → String → List (String × String)
  | [], k, v => [(k, v)]
  | (k', v') :: rest, k, v =>
    if k' = k then (k, v) :: rest.filter (fun p => p.1 ≠ k)
    else (k', v') :: setParam rest k v

/-- `URLSearchParams.get`: the value of the first binding of `k`. -/
def getParam (ps : List (String × String)) (k : String) : Option String :=
  (ps.find? (fun p => p.1 == k)).map (fun p => p.2)

/-- Serialize query bindings as `k1=v1&k2=v2`. -/
def joinParams : List (String × String) → String
  | [] => ""
  | [(k, v)] => k ++ "=" ++ v
  | (k, v) :: rest => k ++ "=" ++ v ++ "&" ++ joinParams rest

/-- `URL.toString()` for the simplified model. -/
def urlToString (u : URLRec) : String :=
  u.scheme ++ "://" ++ u.host ++ u.path ++
    (if u.params.isEmpty then "" else "?" ++ joinParams u.params)

/-- Model of an `HTMLIFrameElement`: its `src` attribute and whether its
`contentWindow` is currently reachable (non-null). Appending to a
container makes the content window available, but it can later become
unreachable (e.g. after external detachment), so handler theorems
quantify over both cases. -/
structure IframeEl where
  src : String
  hasContentWindow : Bool
deriving Repr, DecidableEq

/-- A child node of the mount container. -/
inductive Node where
  | iframe : IframeEl → Node
  | other : String → Node
deriving Repr, DecidableEq

/-- The `target` option: `HTMLElement | string` at the type level, plus
`invalid` for a truthy runtime value of any other type (a falsy one is
already rejected by the `!this.target` check, like the empty selector). -/
inductive Target where
  | element : Nat → Target
  | selector : String → Target
  | invalid : Target
deriving Repr, DecidableEq

/-- JavaScript truthiness of the `target` option: only the empty selector
string is falsy (an element reference and `invalid` are truthy). -/
def targetFalsy : Target → Bool
  | Target.selector s => s = ""
  | _ => false

/-- The page surrounding the controller: the host page's own origin
(`window.location.origin`) and the selector strings under which
`document.querySelector` finds the one mount container of the model. -/
structure PageEnv where
  hostOrigin : String
  selectors : List String
deriving Repr, DecidableEq

/-- The private fields of a `MivaBDN` instance. -/
structure State where
  appId : String
  baseUrl : String
  debug : Bool
  iframeEl : Option IframeEl
  origin : String
  target : Target
deriving Repr, DecidableEq

/-- The constructor options after defaulting (`debug ?? false`); the two
optional callbacks default to no-ops and are modelled at handler time by
`Callbacks`. -/
structure Options where
  appId : String
  baseUrl : String
  debug : Bool
  target : Target
deriving Repr, DecidableEq

/-- The observable behaviour of the user-supplied callbacks on a given
payload: `none` means the callback returns normally, `some msg` means it
throws `msg`. An unset callback defaults to a no-op, i.e. the constant
`none` behaviour. -/
structure Callbacks where
  onReadyThrows : JValue → Option String
  onConfirmedThrows : JValue → Option String

/-- An inbound `message` event: its reported origin and its data. -/
structure MessageEvent where
  origin : String
  data : JValue

/-- An observable effect of the controller, in execution order: a callback
invocation (the callback always also receives the controller instance
itself) or an outbound `postMessage` to a target origin. -/
inductive Effect where
  | callOnReady : JValue → Effect
  | callOnConfirmed : JValue → Effect
  | post : JValue → String → Effect
deriving Repr

/-- Result of running an event handler: the effects it performed before
returning or throwing, and the exception it propagated, if any. -/
structure HandlerOutput where
  effects : List Effect
  thrown : Option JSError
deriving Repr

/-- The `constructor(options)`: field assignments are pure except
`this.origin = new URL(this.baseUrl).origin`, which throws a platform
`TypeError` when the base address does not parse; the half-assigned
object is then discarded, so construction is all-or-nothing. -/
def mk (o : Options) : Except JSError State :=
  match parseURL o.baseUrl with
  | none => Except.error (JSError.typeError "Invalid URL")
  | some u =>
    Except.ok { appId := o.appId, baseUrl := o.baseUrl, debug := o.debug,
                iframeEl := none, origin := u.origin, target := o.target }

/-- Whether `this.iframeEl && this.iframeEl.contentWindow` is truthy. -/
def reachable (c : State) : Bool :=
  match c.iframeEl with
  | some f => f.hasContentWindow
  | none => false

/-- `postMessage(payload)` (lines 138–146): throws `MivaBDNError` when no
iframe is mounted or its content window is unreachable; otherwise posts
the payload to the content window addressed to `this.origin`. -/
def postMessage (c : State) (payload : JValue) : Except JSError Effect :=
  match c.iframeEl with
  | none => Except.error (JSError.mivaBDNError "Failed to post message. Iframe is not available.")
  | some f =>
    if f.hasContentWindow then Except.ok (Effect.post payload c.origin)
    else Except.error (JSError.mivaBDNError "Failed to post message. Iframe is not available.")

/-- The `{ status: 'acknowledged' }` reply payload. -/
def ackMsg : JValue :=
  JValue.obj [("status", JValue.str "acknowledged")]

/-- `handleMessage(event)` (lines 210–231; identical in the reuse variant,
lines 334–351): drop on origin mismatch, else switch on `data?.status`.
The handler itself assigns no instance field and touches no DOM node, so
its output is just the effect trace and the propagated exception. -/
def handleMessage (cbs : Callbacks) (c : State) (ev : MessageEvent) : HandlerOutput :=
  if ev.origin ≠ c.origin then { effects := [], thrown := none }
  else
    match statusOf ev.data with
    | some (JValue.str "ready") =>
      (match cbs.onReadyThrows ev.data with
       | some m => { effects := [Effect.callOnReady ev.data], thrown := some (JSError.userError m) }
       | none =>
         match postMessage c ackMsg with
         | Except.error e => { effects := [Effect.callOnReady ev.data], thrown := some e }
         | Except.ok eff => { effects := [Effect.callOnReady ev.data, eff], thrown := none })
    | some (JValue.str "confirmed") =>
      (match cbs.onConfirmedThrows ev.data with
       | some m =>
         { effects := [Effect.callOnConfirmed ev.data], thrown := some (JSError.userError m) }
       | none => { effects := [Effect.callOnConfirmed ev.data], thrown := none })
    | _ => { effects := [], thrown := none }

/-- The host page state around one controller: the instance fields, the
window `message` subscription of its handler, and the children of the one
mount container. -/
structure Host where
  bdn : State
  subscribed : Bool
  containerChildren : List Node

/-- Delivery of a window `message` event: the registered handler runs only
while the subscription is active; the handler mutates no state, so the
host state is returned unchanged either way. -/
def deliverMessage (cbs : Callbacks) (h : Host) (ev : MessageEvent) : Host × HandlerOutput :=
  if h.subscribed then (h, handleMessage cbs h.bdn ev)
  else (h, { effects := [], thrown := none })

/-- `resolveTarget(target)` (lines 155–167), in the single-container page
model: an element reference is used directly; a selector resolves iff the
page environment knows it; anything else throws. -/
def resolveTarget (env : PageEnv) : Target → Except JSError Unit
  | Target.element _ => Except.ok ()
  | Target.selector s =>
    if s ∈ env.selectors then Except.ok ()
    else Except.error (JSError.mivaBDNError ("Target element \"" ++ s ++ "\" not found."))
  | Target.invalid =>
    Except.error (JSError.mivaBDNError "Invalid target specified. Must be an HTMLElement or a selector.")

/-- Lines 187–193: `new URL(this.baseUrl)` followed by the three
`searchParams.set` calls, in source order. -/
def builtIframeURL (hostOrigin : String) (c : State) (u : URLRec) : URLRec :=
  let ps₁ := setParam u.params "origin" hostOrigin
  let ps₂ := setParam ps₁ "appId" c.appId
  let ps₃ := setParam ps₂ "debug" (if c.debug then "1" else "0")
  { u with params := ps₃ }

/-- `createIframe(container)` of the clear-and-recreate variant
(lines 181–200): clear the container, build the iframe URL, create the
iframe with that `src`, append it. Returns the container's new children
and the created element (or the `TypeError` of `new URL`, thrown after
the clearing already happened). -/
def createIframe (env : PageEnv) (c : State) (_children : List Node) :
    List Node × Except JSError IframeEl :=
  let cleared : List Node := []
  match parseURL c.baseUrl with
  | none => (cleared, Except.error (JSError.typeError "Invalid URL"))
  | some u =>
    let created : IframeEl :=
      { src := urlToString (builtIframeURL env.hostOrigin c u), hasContentWindow := true }
    (cleared ++ [Node.iframe created], Except.ok created)

/-- `init()` of the clear-and-recreate variant (lines 96–114): the three
emptiness checks, target resolution, iframe creation, then subscription.
Any throw leaves the state reached so far. -/
def init (env : PageEnv) (h : Host) : Host × Option JSError :=
  if h.bdn.appId = "" then
    (h, some (JSError.mivaBDNError "appId is required for initialization."))
  else if h.bdn.baseUrl = "" then
    (h, some (JSError.mivaBDNError "baseUrl is required for initialization."))
  else if targetFalsy h.bdn.target then
    (h, some (JSError.mivaBDNError "target is required for initialization."))
  else
    match resolveTarget env h.bdn.target with
    | Except.error e => (h, some e)
    | Except.ok () =>
      match createIframe env h.bdn h.containerChildren with
      | (ch, Except.error e) => ({ h with containerChildren := ch }, some e)
      | (ch, Except.ok created) =>
        ({ h with containerChildren := ch,
                  bdn := { h.bdn with iframeEl := some created },
                  subscribed := true }, none)

/-- `Node.removeChild`: removes the first occurrence of the child, throws
a `NotFoundError` when the node is not a child. -/
def removeChildPrim (children : List Node) (n : Node) : Except JSError (List Node) :=
  if n ∈ children then Except.ok (children.erase n)
  else Except.error (JSError.notFoundError "The node to be removed is not a child of this node.")

/-- `destroy()` of the clear-and-recreate variant (lines 120–130):
unsubscribe, detach the owned iframe when it has a parent, clear the
reference. The `parentNode` guard means the detach can never throw; on the
(unreachable) throwing path the reference would stay, as in the source. -/
def destroy (h : Host) : Host × Option JSError :=
  let h₁ : Host := { h with subscribed := false }
  match h₁.bdn.iframeEl with
  | some f =>
    if Node.iframe f ∈ h₁.containerChildren then
      match removeChildPrim h₁.containerChildren (Node.iframe f) with
      | Except.ok ch =>
        ({ h₁ with containerChildren := ch, bdn := { h₁.bdn with iframeEl := none } }, none)
      | Except.error e => (h₁, some e)
    else ({ h₁ with bdn := { h₁.bdn with iframeEl := none } }, none)
  | none => ({ h₁ with bdn := { h₁.bdn with iframeEl := none } }, none)

/-- `container.querySelector('iframe')` in the flat container model. -/
def findFirstIframe : List Node → Option IframeEl
  | [] => none
  | Node.iframe f :: _ => some f
  | Node.other _ :: rest => findFirstIframe rest

namespace Reuse

/-- `createIframe(container)` of the iframe-reuse variant (lines 317–332):
adopt an existing iframe untouched if one is found; otherwise build and
append a fresh one (without clearing the container first). -/
def createIframe (env : PageEnv) (c : State) (children : List Node) :
    List Node × Except JSError IframeEl :=
  match findFirstIframe children with
  | some existing => (children, Except.ok existing)
  | none =>
    match parseURL c.baseUrl with
    | none => (children, Except.error (JSError.typeError "Invalid URL"))
    | some u =>
      let created : IframeEl :=
        { src := urlToString (builtIframeURL env.hostOrigin c u), hasContentWindow := true }
      (children ++ [Node.iframe created], Except.ok created)

/-- `init()` of the iframe-reuse variant (lines 267–285): same body as the
primary variant, calling this variant's `createIframe`. -/
def init (env : PageEnv) (h : Host) : Host × Option JSError :=
  if h.bdn.appId = "" then
    (h, some (JSError.mivaBDNError "appId is required for initialization."))
  else if h.bdn.baseUrl = "" then
    (h, some (JSError.mivaBDNError "baseUrl is required for initialization."))
  else if targetFalsy h.bdn.target then
    (h, some (JSError.mivaBDNError "target is required for initialization."))
  else
    match resolveTarget env h.bdn.target with
    | Except.error e => (h, some e)
    | Except.ok () =>
      match Reuse.createIframe env h.bdn h.containerChildren with
      | (ch, Except.error e) => ({ h with containerChildren := ch }, some e)
      | (ch, Except.ok created) =>
        ({ h with containerChildren := ch,
                  bdn := { h.bdn with iframeEl := some created },
                  subscribed := true }, none)

/-- `destroy()` of the iframe-reuse variant (lines 287–291): only removes
the message listener; the iframe stays mounted and referenced. -/
def destroy (h : Host) : Host × Option JSError :=
  ({ h with subscribed := false }, none)

end Reuse

end MivaBDN

namespace Demo

open MivaBDN

/-- The iframe URL built by the demo bootstrap `initMivaBDN`
(`src/unnamed/part_000`, lines 20–25): only `appId` and `debug` are set,
and `debug` uses the `'123'` sentinel when true. -/
def iframeURL (appId : String) (baseUrl : String) (debug : Bool) : Option URLRec :=
  (parseURL baseUrl).map (fun u =>
    let ps₁ := setParam u.params "appId" appId
    let ps₂ := setParam ps₁ "debug" (if debug then "123" else "0")
    { u with params := ps₂ })

end Demo


/-! ## Sample concrete values used by witnesses -/

namespace MivaBDN

/-- Callback environment in which both callbacks return normally (also the
behaviour of the no-op defaults for unset callbacks). -/
def noopCallbacks : Callbacks :=
  { onReadyThrows := fun _ => none, onConfirmedThrows := fun _ => none }

/-- A concrete mounted iframe with a reachable content window. -/
def sampleFrame : IframeEl :=
  { src := "https://m.example?origin=https://host.example&appId=a&debug=0",
    hasContentWindow := true }

/-- A concrete controller state trusted at `https://m.example` with the
iframe mounted. -/
def sampleState : State :=
  { appId := "a", baseUrl := "https://m.example", debug := false,
    iframeEl := some sampleFrame, origin := "https://m.example",
    target := Target.selector "#app" }

/-- `sampleState` with the iframe reference absent (content window
unreachable). -/
def unmountedState : State :=
  { sampleState with iframeEl := none }

/-- A concrete initialized host around `sampleState`. -/
def sampleHost : Host :=
  { bdn := sampleState, subscribed := true,
    containerChildren := [Node.iframe sampleFrame] }

/-- A payload whose `status` field is `"ready"`. -/
def readyMsg : JValue := JValue.obj [("status", JValue.str "ready")]

/-- A payload whose `status` field is `"confirmed"`. -/
def confirmedMsg : JValue := JValue.obj [("status", JValue.str "confirmed")]

/-- A concrete page: host origin `https://host.example`, one container
matching the selector `#app`. -/
def sampleEnv : PageEnv :=
  { hostOrigin := "https://host.example", selectors := ["#app"] }

/-- A concrete host before any `init`: no iframe reference, no
subscription, some unrelated content in the container. -/
def preInitHost : Host :=
  { bdn := unmountedState, subscribed := false,
    containerChildren := [Node.other "div"] }

/-- A pre-existing iframe with an unrelated address, as found by the
reuse variant. -/
def adoptedFrame : IframeEl :=
  { src := "https://elsewhere.example/page", hasContentWindow := true }

/-- A concrete host whose container already holds `adoptedFrame`. -/
def reuseHost : Host :=
  { bdn := unmountedState, subscribed := false,
    containerChildren := [Node.other "div", Node.iframe adoptedFrame] }

/-- A concrete host whose controller has an empty `appId`. -/
def emptyAppIdHost : Host :=
  { bdn := { unmountedState with appId := "" }, subscribed := false,
    containerChildren := [Node.other "div"] }

/-- A concrete host whose controller has an empty (falsy) target. -/
def emptyTargetHost : Host :=
  { bdn := { unmountedState with target := Target.selector "" }, subscribed := false,
    containerChildren := [Node.other "div"] }

/-- Concrete options whose base address does not parse as a URL. -/
def badURLOptions : Options :=
  { appId := "app", baseUrl := "not a url", debug := false,
    target := Target.selector "#app" }

end MivaBDN

/-! ## Evaluation lemmas for the message handler -/

namespace MivaBDN

theorem postMessage_of_reachable (c : State) (p : JValue) (hr : reachable c = true) :
    postMessage c p = Except.ok (Effect.post p c.origin) := by
  unfold postMessage
  unfold reachable at hr
  cases hif : c.iframeEl with
  | none => rw [hif] at hr; simp at hr
  | some f => rw [hif] at hr; simp at hr; simp [hr]

theorem postMessage_of_unreachable (c : State) (p : JValue) (hr : reachable c = false) :
    postMessage c p
      = Except.error (JSError.mivaBDNError "Failed to post message. Iframe is not available.") := by
  unfold postMessage
  unfold reachable at hr
  cases hif : c.iframeEl with
  | none => simp
  | some f => rw [hif] at hr; simp at hr; simp [hr]

theorem handleMessage_mismatch (cbs : Callbacks) (c : State) (ev : MessageEvent)
    (hne : ev.origin ≠ c.origin) :
    handleMessage cbs c ev = { effects := [], thrown := none } := by
  unfold handleMessage
  simp [hne]

theorem handleMessage_ready_ok (cbs : Callbacks) (c : State) (ev : MessageEvent)
    (hor : ev.origin = c.origin) (hst : statusOf ev.data = some (JValue.str "ready"))
    (hcb : cbs.onReadyThrows ev.data = none) (hr : reachable c = true) :
    handleMessage cbs c ev
      = { effects := [Effect.callOnReady ev.data, Effect.post ackMsg c.origin], thrown := none } := by
  unfold handleMessage
  rw [hst, postMessage_of_reachable c ackMsg hr]
  simp [hor, hcb]

theorem handleMessage_ready_cb_throws (cbs : Callbacks) (c : State) (ev : MessageEvent)
    (m : String) (hor : ev.origin = c.origin)
    (hst : statusOf ev.data = some (JValue.str "ready"))
    (hcb : cbs.onReadyThrows ev.data = some m) :
    handleMessage cbs c ev
      = { effects := [Effect.callOnReady ev.data], thrown := some (JSError.userError m) } := by
  unfold handleMessage
  rw [hst]
  simp [hor, hcb]

theorem handleMessage_ready_unreachable (cbs : Callbacks) (c : State) (ev : MessageEvent)
    (hor : ev.origin = c.origin) (hst : statusOf ev.data = some (JValue.str "ready"))
    (hcb : cbs.onReadyThrows ev.data = none) (hr : reachable c = false) :
    handleMessage cbs c ev
      = { effects := [Effect.callOnReady ev.data],
          thrown := some (JSError.mivaBDNError "Failed to post message. Iframe is not available.") } := by
  unfold handleMessage
  rw [hst, postMessage_of_unreachable c ackMsg hr]
  simp [hor, hcb]

theorem handleMessage_confirmed_ok (cbs : Callbacks) (c : State) (ev : MessageEvent)
    (hor : ev.origin = c.origin) (hst : statusOf ev.data = some (JValue.str "confirmed"))
    (hcb : cbs.onConfirmedThrows ev.data = none) :
    handleMessage cbs c ev
      = { effects := [Effect.callOnConfirmed ev.data], thrown := none } := by
  unfold handleMessage
  rw [hst]
  simp [hor, hcb]

theorem handleMessage_confirmed_cb_throws (cbs : Callbacks) (c : State) (ev : MessageEvent)
    (m : String) (hor : ev.origin = c.origin)
    (hst : statusOf ev.data = some (JValue.str "confirmed"))
    (hcb : cbs.onConfirmedThrows ev.data = some m) :
    handleMessage cbs c ev
      = { effects := [Effect.callOnConfirmed ev.data], thrown := some (JSError.userError m) } := by
  unfold handleMessage
  rw [hst]
  simp [hor, hcb]

theorem handleMessage_unrecognized (cbs : Callbacks) (c : State) (ev : MessageEvent)
    (hr : statusOf ev.data ≠ some (JValue.str "ready"))
    (hc : statusOf ev.data ≠ some (JValue.str "confirmed")) :
    handleMessage cbs c ev = { effects := [], thrown := none } := by
  unfold handleMessage
  split
  · rfl
  · split
    · exact absurd (by assumption) hr
    · exact absurd (by assumption) hc
    · rfl

end MivaBDN

/-! ## Claim theorems -/

namespace MivaBDN

/-- C1: an inbound message event whose reported origin differs (by exact
string comparison) from the controller's trusted origin makes the
registered handler invoke no callback, send no outbound message, and
change no controller state, regardless of the message payload. -/
theorem c1_origin_mismatch_inert (cbs : Callbacks) (h : Host) (ev : MessageEvent)
    (hne : ev.origin ≠ h.bdn.origin) :
    deliverMessage cbs h ev = (h, { effects := [], thrown := none }) := by
  unfold deliverMessage
  rw [handleMessage_mismatch cbs h.bdn ev hne]
  split <;> rfl

/-- Witness for C1 at a concrete mismatched-origin event. -/
theorem c1_origin_mismatch_inert_witness :
    deliverMessage noopCallbacks sampleHost { origin := "https://evil.example", data := readyMsg }
      = (sampleHost, { effects := [], thrown := none }) :=
  c1_origin_mismatch_inert noopCallbacks sampleHost
    { origin := "https://evil.example", data := readyMsg } (by decide)

/-- C2: a matching-origin event with status `"ready"` invokes `onReady`
exactly once and sends exactly one outbound `{status:"acknowledged"}`
message addressed to the trusted origin, callback strictly before the
acknowledgment; a throwing callback skips the acknowledgment loudly (the
exception propagates), never silently. -/
theorem c2_ready_handshake (cbs : Callbacks) (c : State) (ev : MessageEvent)
    (hor : ev.origin = c.origin) (hst : statusOf ev.data = some (JValue.str "ready"))
    (hr : reachable c = true) :
    (cbs.onReadyThrows ev.data = none →
      handleMessage cbs c ev
        = { effects := [Effect.callOnReady ev.data, Effect.post ackMsg c.origin],
            thrown := none }) ∧
    (∀ m : String, cbs.onReadyThrows ev.data = some m →
      handleMessage cbs c ev
        = { effects := [Effect.callOnReady ev.data],
            thrown := some (JSError.userError m) }) := by
  constructor
  · intro hcb
    exact handleMessage_ready_ok cbs c ev hor hst hcb hr
  · intro m hcb
    exact handleMessage_ready_cb_throws cbs c ev m hor hst hcb

/-- Witness for C2 at a concrete matching-origin `"ready"` event. -/
theorem c2_ready_handshake_witness :
    handleMessage noopCallbacks sampleState { origin := "https://m.example", data := readyMsg }
      = { effects := [Effect.callOnReady readyMsg, Effect.post ackMsg "https://m.example"],
          thrown := none } :=
  (c2_ready_handshake noopCallbacks sampleState
    { origin := "https://m.example", data := readyMsg } (by rfl) (by rfl) (by rfl)).1 (by rfl)

/-- C9: a matching-origin event with status `"confirmed"` invokes
`onConfirmed` exactly once (with the payload and the instance) and sends
zero outbound messages, whether or not the callback throws. -/
theorem c9_confirmed_once_no_outbound (cbs : Callbacks) (c : State) (ev : MessageEvent)
    (hor : ev.origin = c.origin)
    (hst : statusOf ev.data = some (JValue.str "confirmed")) :
    (handleMessage cbs c ev).effects = [Effect.callOnConfirmed ev.data] := by
  cases hcb : cbs.onConfirmedThrows ev.data with
  | none => rw [handleMessage_confirmed_ok cbs c ev hor hst hcb]
  | some m => rw [handleMessage_confirmed_cb_throws cbs c ev m hor hst hcb]

/-- Witness for C9 at a concrete matching-origin `"confirmed"` event. -/
theorem c9_confirmed_once_no_outbound_witness :
    (handleMessage noopCallbacks sampleState
      { origin := "https://m.example", data := confirmedMsg }).effects
      = [Effect.callOnConfirmed confirmedMsg] :=
  c9_confirmed_once_no_outbound noopCallbacks sampleState
    { origin := "https://m.example", data := confirmedMsg } (by rfl) (by rfl)

/-- C3 counterexample: with matching origin, status `"ready"`, a
non-throwing callback and no mounted iframe, the handler propagates the
`MivaBDNError` thrown by the acknowledgment send — it does raise to its
caller. -/
theorem c3_counterexample :
    (handleMessage noopCallbacks unmountedState
      { origin := "https://m.example", data := readyMsg }).thrown
      = some (JSError.mivaBDNError "Failed to post message. Iframe is not available.") := by
  rfl

/-- C3 (amended): the handler returns without raising exactly when the
origin mismatches (silent drop), or the discriminator is unrecognized
(ignored), or the relevant callback returns normally and — for `"ready"` —
the acknowledgment send finds a reachable iframe content window. -/
theorem c3_amended_no_throw_characterization (cbs : Callbacks) (c : State) (ev : MessageEvent) :
    (handleMessage cbs c ev).thrown = none ↔
      (ev.origin ≠ c.origin ∨
       (statusOf ev.data = some (JValue.str "ready") ∧
         cbs.onReadyThrows ev.data = none ∧ reachable c = true) ∨
       (statusOf ev.data = some (JValue.str "confirmed") ∧
         cbs.onConfirmedThrows ev.data = none) ∨
       (statusOf ev.data ≠ some (JValue.str "ready") ∧
         statusOf ev.data ≠ some (JValue.str "confirmed"))) := by
  by_cases h1 : ev.origin = c.origin
  · by_cases hready : statusOf ev.data = some (JValue.str "ready")
    · cases hcb : cbs.onReadyThrows ev.data with
      | none =>
        cases hr : reachable c with
        | true =>
          rw [handleMessage_ready_ok cbs c ev h1 hready hcb hr]
          simp [h1, hready, hcb, hr]
        | false =>
          rw [handleMessage_ready_unreachable cbs c ev h1 hready hcb hr]
          simp [h1, hready, hcb, hr]
      | some m =>
        rw [handleMessage_ready_cb_throws cbs c ev m h1 hready hcb]
        simp [h1, hready, hcb]
    · by_cases hconf : statusOf ev.data = some (JValue.str "confirmed")
      · cases hcb : cbs.onConfirmedThrows ev.data with
        | none =>
          rw [handleMessage_confirmed_ok cbs c ev h1 hconf hcb]
          simp [h1, hconf, hcb]
        | some m =>
          rw [handleMessage_confirmed_cb_throws cbs c ev m h1 hconf hcb]
          simp [h1, hconf, hcb, hready]
      · rw [handleMessage_unrecognized cbs c ev hready hconf]
        simp [hready, hconf]
  · rw [handleMessage_mismatch cbs c ev h1]
    simp [h1]

/-- Witness for C3 (amended) at a concrete mismatched-origin event. -/
theorem c3_amended_no_throw_characterization_witness :
    (handleMessage noopCallbacks sampleState
      { origin := "https://evil.example", data := readyMsg }).thrown = none :=
  (c3_amended_no_throw_characterization noopCallbacks sampleState
    { origin := "https://evil.example", data := readyMsg }).mpr (Or.inl (by decide))

end MivaBDN

/-! ## Lifecycle lemmas and remaining claim theorems -/

namespace MivaBDN

theorem deliver_unsubscribed (cbs : Callbacks) (h : Host) (ev : MessageEvent)
    (hsub : h.subscribed = false) :
    deliverMessage cbs h ev = (h, { effects := [], thrown := none }) := by
  unfold deliverMessage
  simp [hsub]

theorem init_ok_inversion (env : PageEnv) (h h' : Host)
    (hinit : init env h = (h', none)) :
    ∃ created : IframeEl,
      h'.bdn = { h.bdn with iframeEl := some created } ∧
      h'.subscribed = true ∧
      h'.containerChildren = [Node.iframe created] := by
  unfold init at hinit
  split at hinit
  · simp at hinit
  · split at hinit
    · simp at hinit
    · split at hinit
      · simp at hinit
      · split at hinit
        · simp at hinit
        · split at hinit
          · simp at hinit
          · rename_i ch created hci
            rw [Prod.mk.injEq] at hinit
            obtain ⟨hh, -⟩ := hinit
            unfold createIframe at hci
            split at hci
            · simp at hci
            · rename_i u hu
              rw [Prod.mk.injEq] at hci
              obtain ⟨hch, hcr⟩ := hci
              rw [Except.ok.injEq] at hcr
              subst hcr
              refine ⟨{ src := urlToString (builtIframeURL env.hostOrigin h.bdn u),
                        hasContentWindow := true }, ?_, ?_, ?_⟩
              · rw [← hh]
              · rw [← hh]
              · rw [← hh, ← hch]
                rfl

end MivaBDN

namespace MivaBDN

theorem destroy_eval_attached (h : Host) (f : IframeEl)
    (hif : h.bdn.iframeEl = some f)
    (hmem : Node.iframe f ∈ h.containerChildren) :
    destroy h
      = ({ h with subscribed := false,
                  containerChildren := h.containerChildren.erase (Node.iframe f),
                  bdn := { h.bdn with iframeEl := none } }, none) := by
  unfold destroy removeChildPrim
  simp [hif, hmem]

/-- C5 counterexample: in the iframe-reuse variant, after a completed
`init` that adopted a pre-existing iframe, `destroy` leaves the
owned-iframe reference set and the iframe attached to the container — it
neither detaches nor clears. -/
theorem c5_counterexample :
    (Reuse.destroy (Reuse.init sampleEnv reuseHost).1).1.bdn.iframeEl = some adoptedFrame ∧
    (Reuse.destroy (Reuse.init sampleEnv reuseHost).1).1.containerChildren
      = [Node.other "div", Node.iframe adoptedFrame] :=
  ⟨rfl, rfl⟩

/-- C5 (amended): after a completed `init` of the clear-and-recreate
variant, `destroy` removes the subscription, detaches the iframe `init`
mounted (leaving the container empty) and clears the owned-iframe
reference; the iframe-reuse variant's `destroy` only removes the
subscription, leaving container and reference untouched. In both
variants a subsequently delivered message event (in particular a
matching-origin `"ready"` one) produces no callback and no
acknowledgment. -/
theorem c5_destroy_variants (env : PageEnv) (h h₁ : Host)
    (hinit : init env h = (h₁, none)) :
    ((destroy h₁).2 = none ∧
     (destroy h₁).1.subscribed = false ∧
     (destroy h₁).1.bdn.iframeEl = none ∧
     (destroy h₁).1.containerChildren = [] ∧
     (∀ cbs ev, deliverMessage cbs (destroy h₁).1 ev
       = ((destroy h₁).1, { effects := [], thrown := none }))) ∧
    (∀ g : Host, Reuse.destroy g = ({ g with subscribed := false }, none) ∧
     (∀ cbs ev, deliverMessage cbs (Reuse.destroy g).1 ev
       = ((Reuse.destroy g).1, { effects := [], thrown := none }))) := by
  constructor
  · obtain ⟨created, hbdn, hsub, hch⟩ := init_ok_inversion env h h₁ hinit
    have hif : h₁.bdn.iframeEl = some created := by rw [hbdn]
    have hmem : Node.iframe created ∈ h₁.containerChildren := by
      rw [hch]; exact List.mem_singleton.mpr rfl
    rw [destroy_eval_attached h₁ created hif hmem]
    refine ⟨rfl, rfl, rfl, ?_, ?_⟩
    · rw [hch]
      simp [List.erase_cons_head]
    · intro cbs ev
      exact deliver_unsubscribed cbs _ ev rfl
  · intro g
    refine ⟨rfl, ?_⟩
    intro cbs ev
    exact deliver_unsubscribed cbs _ ev rfl

/-- Witness for C5 (amended): a concrete successful `init` followed by
`destroy` in each variant, with a concrete matching-origin `"ready"`
event that is not processed. -/
theorem c5_destroy_variants_witness :
    (destroy (init sampleEnv preInitHost).1).2 = none ∧
    (destroy (init sampleEnv preInitHost).1).1.subscribed = false ∧
    (destroy (init sampleEnv preInitHost).1).1.bdn.iframeEl = none ∧
    (destroy (init sampleEnv preInitHost).1).1.containerChildren = [] ∧
    deliverMessage noopCallbacks (destroy (init sampleEnv preInitHost).1).1
        { origin := "https://m.example", data := readyMsg }
      = ((destroy (init sampleEnv preInitHost).1).1, { effects := [], thrown := none }) ∧
    Reuse.destroy preInitHost = ({ preInitHost with subscribed := false }, none) := by
  have h := c5_destroy_variants sampleEnv preInitHost (init sampleEnv preInitHost).1 (by rfl)
  exact ⟨h.1.1, h.1.2.1, h.1.2.2.1, h.1.2.2.2.1,
    h.1.2.2.2.2 noopCallbacks { origin := "https://m.example", data := readyMsg },
    (h.2 preInitHost).1⟩

/-- C8: `destroy` never throws, on any host state — including one that was
never initialized (absent subscription and iframe are no-ops) — and a
second consecutive `destroy` is a complete no-op. -/
theorem c8_destroy_idempotent_no_throw (h : Host) :
    (destroy h).2 = none ∧ destroy (destroy h).1 = ((destroy h).1, none) := by
  cases hif : h.bdn.iframeEl with
  | none => simp [destroy, hif]
  | some f =>
    by_cases hmem : Node.iframe f ∈ h.containerChildren
    · simp [destroy, removeChildPrim, hif, hmem]
    · simp [destroy, removeChildPrim, hif, hmem]

/-- C7: `postMessage` throws the typed `MivaBDNError` and sends nothing
when no iframe is mounted or its content window is unreachable; otherwise
it sends the payload addressed exactly to the trusted origin derived from
the base address — which is never the wildcard `"*"`. -/
theorem c7_postMessage_strict_origin (c : State) (payload : JValue) (u : URLRec)
    (_hparse : parseURL c.baseUrl = some u) (horig : c.origin = u.origin) :
    (reachable c = false →
      postMessage c payload
        = Except.error
            (JSError.mivaBDNError "Failed to post message. Iframe is not available.")) ∧
    (reachable c = true →
      postMessage c payload = Except.ok (Effect.post payload c.origin)) ∧
    c.origin ≠ "*" := by
  refine ⟨postMessage_of_unreachable c payload, postMessage_of_reachable c payload, ?_⟩
  rw [horig]
  unfold URLRec.origin
  intro hEq
  have hlen := congrArg String.length hEq
  rw [String.length_append, String.length_append] at hlen
  have h3 : ("://" : String).length = 3 := rfl
  have h1 : ("*" : String).length = 1 := rfl
  rw [h3, h1] at hlen
  omega

/-- Witness for C7 at a concrete reachable controller. -/
theorem c7_postMessage_strict_origin_witness :
    postMessage sampleState ackMsg = Except.ok (Effect.post ackMsg "https://m.example") := by
  have h := c7_postMessage_strict_origin sampleState ackMsg
    { scheme := "https", host := "m.example", path := "", params := [] } (by rfl) (by rfl)
  exact h.2.1 (by rfl)

/-- C4 counterexample: a base address that does not parse as a URL makes
the constructor itself throw the platform's `TypeError` — not the typed
`MivaBDNError` the claim promises. -/
theorem c4_counterexample :
    mk badURLOptions = Except.error (JSError.typeError "Invalid URL") ∧
    (JSError.typeError "Invalid URL").isMivaBDNError = false :=
  ⟨rfl, rfl⟩

/-- C4 (amended): an empty `appId` (resp. an empty, falsy, target) makes
`init` throw a `MivaBDNError` naming the field at its very start, with no
DOM mutation and no subscription (the host state is returned untouched);
an unparseable base address instead makes construction itself fail, with
a platform URL `TypeError` and no side effect. -/
theorem c4_amended_validation (env : PageEnv) (h : Host) (o : Options) :
    (h.bdn.appId = "" →
      init env h = (h, some (JSError.mivaBDNError "appId is required for initialization."))) ∧
    (h.bdn.appId ≠ "" → h.bdn.baseUrl ≠ "" → h.bdn.target = Target.selector "" →
      init env h = (h, some (JSError.mivaBDNError "target is required for initialization."))) ∧
    (parseURL o.baseUrl = none → mk o = Except.error (JSError.typeError "Invalid URL")) := by
  refine ⟨?_, ?_, ?_⟩
  · intro ha
    unfold init
    simp [ha]
  · intro ha hb ht
    unfold init
    simp [ha, hb, ht, targetFalsy]
  · intro hp
    unfold mk
    rw [hp]

/-- Witness for C4 (amended) at three concrete bad configurations. -/
theorem c4_amended_validation_witness :
    init sampleEnv emptyAppIdHost
      = (emptyAppIdHost, some (JSError.mivaBDNError "appId is required for initialization.")) ∧
    init sampleEnv emptyTargetHost
      = (emptyTargetHost, some (JSError.mivaBDNError "target is required for initialization.")) ∧
    mk badURLOptions = Except.error (JSError.typeError "Invalid URL") :=
  ⟨(c4_amended_validation sampleEnv emptyAppIdHost badURLOptions).1 (by rfl),
   (c4_amended_validation sampleEnv emptyTargetHost badURLOptions).2.1
     (by decide) (by decide) (by rfl),
   (c4_amended_validation sampleEnv emptyAppIdHost badURLOptions).2.2 (by rfl)⟩

/-- C10: in the iframe-reuse variant, when `init` finds a pre-existing
iframe under the resolved container, it adopts that very element as the
owned iframe without assigning its `src` (so the `origin`, `appId` and
`debug` parameters are never applied to it) and leaves the container
unchanged: the adopted iframe keeps the address it already had. -/
theorem c10_reuse_adopts_unchanged (env : PageEnv) (h : Host) (f : IframeEl)
    (ha : h.bdn.appId ≠ "") (hb : h.bdn.baseUrl ≠ "")
    (ht : targetFalsy h.bdn.target = false)
    (hres : resolveTarget env h.bdn.target = Except.ok ())
    (hf : findFirstIframe h.containerChildren = some f) :
    Reuse.init env h
      = ({ h with subscribed := true, bdn := { h.bdn with iframeEl := some f } }, none) := by
  unfold Reuse.init Reuse.createIframe
  simp [ha, hb, ht, hres, hf]

/-- Witness for C10 at a concrete container already holding an iframe. -/
theorem c10_reuse_adopts_unchanged_witness :
    Reuse.init sampleEnv reuseHost
      = ({ reuseHost with subscribed := true, bdn := { unmountedState with iframeEl := some adoptedFrame } }, none) :=
  c10_reuse_adopts_unchanged sampleEnv reuseHost adoptedFrame
    (by decide) (by decide) (by rfl) (by rfl) (by rfl)

/-- C6: at the repository's own demo call (`appId`
`aebd41ea-6504-4e9e-9756-e6d79b04abc7`, base address
`https://staging.miva.bookai.com`, debug flag true), the demo bootstrap
builds an iframe address whose `debug` parameter is the sentinel `"123"`
— not `"1"` — and which carries no `origin` parameter at all. -/
theorem c6_demo_iframe_url_divergence :
    (Demo.iframeURL "aebd41ea-6504-4e9e-9756-e6d79b04abc7"
        "https://staging.miva.bookai.com" true).map
      (fun u => (getParam u.params "debug", getParam u.params "origin"))
      = some (some "123", none) := by
  rfl

end MivaBDN
